import Mathlib

/-!
Shallow embedding of `src/static/app.js` (scene.org music discovery frontend).

JavaScript functions are modelled as pure Lean functions: the outcome of an
awaited `fetch` is passed in as an `ApiResult` argument, DOM writes become
fields of explicit output structures, `showToast` calls become a list of toast
strings, and `setTimeout` scheduling becomes a list of delays. State mutation
of the module-level `state` object becomes explicit state passing.
-/

/-- Outcome of an awaited `api(method, path, body)` call: `ok` when the
response was parsed successfully, `err` when `fetch` rejected or the wrapper
threw `API status: statusText` (app.js lines 17-26). -/
inductive ApiResult (α : Type) where
  | ok (data : α)
  | err (msg : String)
deriving DecidableEq, Repr

/-- A track record as delivered by the service (app.js uses `id`, `title`,
`filename`, `format`, `upvoted`). -/
structure Track where
  id : Nat
  title : String
  filename : String
  format : String
  upvoted : Bool
deriving DecidableEq, Repr

/-- A collection record (`id`, `name`, `art_url`, `track_count`). -/
structure Collection where
  id : Nat
  name : String
  art_url : Option String := none
  track_count : Nat := 0
deriving DecidableEq, Repr

/-- A category record (`name`, `collection_count`, `track_count`). -/
structure Category where
  name : String
  collection_count : Nat
  track_count : Nat
deriving DecidableEq, Repr

/-- The player snapshot payload returned by `/api/player/current`,
`/api/player/next` and `/api/player/prev`. -/
structure Snapshot where
  track : Option Track
  collection : Option Collection
  category_name : String
  has_prev : Bool
deriving DecidableEq, Repr

/-- One frame of the browse navigation stack: app.js pushes objects
`\x7b type: category, name \x7d` or `\x7b type: collection, id, name \x7d`
onto `state.browseStack`. -/
inductive BrowseFrame where
  | category (name : String)
  | collection (id : Nat) (name : String)
deriving DecidableEq, Repr

/-- An outbound HTTP request issued through `api(...)`, identified by method,
path and query arguments. -/
inductive Request where
  | getCurrent
  | postNext (scope : String)
  | postPrev
  | postUpvote (id : Nat)
  | deleteUpvote (id : Nat)
  | getCategories
  | getCollections (category : String) (q : Option String)
  | getCollectionDetail (id : Nat)
deriving DecidableEq, Repr

/-- The mutable module-level `state` object of app.js (line 5), together with
the `audio.src` assignment made by `playTrack`. -/
structure PlayerState where
  track : Option Track := none
  collection : Option Collection := none
  categoryName : String := ""
  scope : String := "track"
  isPlaying : Bool := false
  isLoading : Bool := false
  browseStack : List BrowseFrame := []
  audioSrc : Option String := none
deriving DecidableEq, Repr

/-- DOM text written by `applyPlayerState`: the `trackTitle`,
`collectionName` and `breadcrumb` elements, plus the heart state and the
prev-button opacity (the latter two are skipped on the null-track path). -/
structure Display where
  trackTitle : String
  collectionName : String
  breadcrumb : String
  heartActive : Option Bool
  prevEnabled : Option Bool
deriving DecidableEq, Repr

/-- `applyPlayerState(data)` (app.js lines 68-97): on a null `track` it writes
the "No tracks available" / "Waiting for crawl..." placeholders and returns
without touching `state`; otherwise it stores the snapshot into `state` and
re-renders title, collection name, breadcrumb (with format badge), heart and
prev button. -/
def applyPlayerState (st : PlayerState) (data : Snapshot) :
    PlayerState × Display :=
  match data.track with
  | none =>
      (st, ⟨"No tracks available", "Waiting for crawl...", "", none, none⟩)
  | some t =>
      let st' := { st with
        track := some t
        collection := data.collection
        categoryName := data.category_name }
      let colName := match data.collection with
        | some c => c.name
        | none => "--"
      let crumbBase := data.category_name ++
        (match data.collection with
          | some c => " > " ++ c.name
          | none => "")
      let crumb := crumbBase ++
        " <span class=\"format-badge\">" ++ t.format.toUpper ++ "</span>"
      (st', ⟨t.title, colName, crumb, some t.upvoted, some data.has_prev⟩)

/-- `playTrack()` (app.js lines 130-145): no-op when no track is loaded;
otherwise sets `isLoading`, points `audio.src` at the stream URL and arms a
one-shot `canplay` listener (the later listener firing is not part of this
step). -/
def playTrack (st : PlayerState) : PlayerState :=
  match st.track with
  | none => st
  | some t =>
      { st with
        isLoading := true
        audioSrc := some ("/api/player/stream/" ++ toString t.id) }

/-- Output of one `nextTrack` / `prevTrack` invocation: the resulting state,
the requests actually sent, the toasts shown, and the display written by
`applyPlayerState` (if reached). -/
structure StepOut where
  state : PlayerState
  requests : List Request
  toasts : List String
  display : Option Display
deriving DecidableEq, Repr

/-- `nextTrack()` (app.js lines 41-53): dropped while `isLoading`; otherwise
sets loading, POSTs `/api/player/next?scope=...`, and either applies the
snapshot and plays, or (catch) toasts "Failed to load next track" and clears
loading. -/
def nextTrack (st : PlayerState) (resp : ApiResult Snapshot) : StepOut :=
  if st.isLoading then ⟨st, [], [], none⟩
  else
    let st1 := { st with isLoading := true }
    match resp with
    | .ok data =>
        let (st2, d) := applyPlayerState st1 data
        ⟨playTrack st2, [.postNext st.scope], [], some d⟩
    | .err _ =>
        ⟨{ st1 with isLoading := false }, [.postNext st.scope],
          ["Failed to load next track"], none⟩

/-- `prevTrack()` (app.js lines 55-66): same shape as `nextTrack` with
POST `/api/player/prev` and the catch toast "No previous track". -/
def prevTrack (st : PlayerState) (resp : ApiResult Snapshot) : StepOut :=
  if st.isLoading then ⟨st, [], [], none⟩
  else
    let st1 := { st with isLoading := true }
    match resp with
    | .ok data =>
        let (st2, d) := applyPlayerState st1 data
        ⟨playTrack st2, [.postPrev], [], some d⟩
    | .err _ =>
        ⟨{ st1 with isLoading := false }, [.postPrev],
          ["No previous track"], none⟩

/-- Output of one `loadCurrent` invocation: resulting state, display written
(when `applyPlayerState` ran), toasts shown, and the delays of `setTimeout`
retries of `loadCurrent` it scheduled. -/
structure LoadCurrentOut where
  state : PlayerState
  display : Option Display
  toasts : List String
  retryDelays : List Nat
deriving DecidableEq, Repr

/-- `loadCurrent()` (app.js lines 30-39): on success applies the snapshot; on
failure logs, schedules `setTimeout(loadCurrent, 3000)` and returns without
raising. No toast on either path. -/
def loadCurrent (st : PlayerState) (resp : ApiResult Snapshot) :
    LoadCurrentOut :=
  match resp with
  | .ok data =>
      let (st', d) := applyPlayerState st data
      ⟨st', some d, [], []⟩
  | .err _ => ⟨st, none, [], [3000]⟩

/-- Output of one `toggleUpvote` invocation. -/
structure UpvoteOut where
  state : PlayerState
  requests : List Request
  toasts : List String
deriving DecidableEq, Repr

/-- `toggleUpvote()` (app.js lines 220-237): no-op without a current track;
otherwise DELETE (when `upvoted`) or POST (when not) `/api/upvote/id`, and
only after the awaited call succeeds flips `state.track.upvoted` and toasts;
the catch toasts "Upvote failed" and leaves state untouched. -/
def toggleUpvote (st : PlayerState) (resp : ApiResult Unit) : UpvoteOut :=
  match st.track with
  | none => ⟨st, [], []⟩
  | some t =>
      if t.upvoted then
        match resp with
        | .ok _ =>
            ⟨{ st with track := some { t with upvoted := false } },
              [.deleteUpvote t.id], ["Removed from library"]⟩
        | .err _ => ⟨st, [.deleteUpvote t.id], ["Upvote failed"]⟩
      else
        match resp with
        | .ok _ =>
            ⟨{ st with track := some { t with upvoted := true } },
              [.postUpvote t.id], ["Saved to library"]⟩
        | .err _ => ⟨st, [.postUpvote t.id], ["Upvote failed"]⟩

/-- The load the browse panel starts after a navigation step: which of
`loadCategories` / `loadCollections(category, query)` /
`loadCollectionDetail(id, name)` is invoked, with its arguments. -/
inductive LoadAction where
  | categories
  | collections (category : String) (query : Option String)
  | collectionDetail (id : Nat) (name : String)
deriving DecidableEq, Repr

/-- Click handler pushing a category frame (app.js lines 303-306): appends
`\x7b type: category, name \x7d` and calls `loadCollections(cat.name)`. -/
def pushCategory (name : String) (stack : List BrowseFrame) :
    List BrowseFrame × LoadAction :=
  (stack ++ [.category name], .collections name none)

/-- Click handler pushing a collection frame (app.js lines 339-342): appends
`\x7b type: collection, id, name \x7d` and calls
`loadCollectionDetail(col.id, col.name)`. -/
def pushCollection (id : Nat) (name : String) (stack : List BrowseFrame) :
    List BrowseFrame × LoadAction :=
  (stack ++ [.collection id name], .collectionDetail id name)

/-- `openBrowse()` (app.js lines 257-262): resets the stack to empty and
loads the category list. -/
def openBrowse : List BrowseFrame × LoadAction :=
  ([], .categories)

/-- `browseBack()` (app.js lines 269-281): `state.browseStack.pop()` (a no-op
on an empty JS array), then reloads according to the new top frame: category
list when empty, `loadCollections(prev.name)` for a category,
`loadCollectionDetail(prev.id, prev.name)` for a collection. -/
def browseBack (stack : List BrowseFrame) : List BrowseFrame × LoadAction :=
  let stack' := stack.dropLast
  match stack'.getLast? with
  | none => (stack', .categories)
  | some (.category name) => (stack', .collections name none)
  | some (.collection id name) => (stack', .collectionDetail id name)

/-- What `#browseList` holds after a load settles: the "Loading..." stub, the
"Failed to load" stub (catch branch), a distinct empty-result indicator
message, or one rendered item per result record. -/
inductive Render (α : Type) where
  | loading
  | failed
  | emptyIndicator (msg : String)
  | items (xs : List α)
deriving DecidableEq, Repr

/-- The browse panel chrome written by the three loaders: panel title,
back-button visibility, and the resulting list rendering. -/
structure BrowseView (α : Type) where
  title : String
  backVisible : Bool
  list : Render α
deriving DecidableEq, Repr

/-- `loadCategories()` (app.js lines 283-312): title "Browse", back hidden;
on success clears the list and appends one item per category — an empty
array yields an empty list, there is no empty-result check; the catch
renders "Failed to load". -/
def loadCategories (resp : ApiResult (List Category)) : BrowseView Category :=
  match resp with
  | .ok cats => ⟨"Browse", false, .items cats⟩
  | .err _ => ⟨"Browse", false, .failed⟩

/-- The query parameter `loadCollections` puts in its URL: `q` is appended
only when `query` is truthy (present and non-empty), app.js lines 321-322. -/
def collectionsQueryParam (query : Option String) : Option String :=
  match query with
  | none => none
  | some q => if q = "" then none else some q

/-- The request `loadCollections(category, query)` issues:
GET `/api/collections?category=...&limit=100` with `q` appended only for a
truthy query. -/
def collectionsRequest (category : String) (query : Option String) :
    Request :=
  .getCollections category (collectionsQueryParam query)

/-- `loadCollections(category, query)` (app.js lines 314-348): title set to
the category, back shown; on success an explicit `length === 0` check
renders the "No collections found" indicator, else one item per collection;
the catch renders "Failed to load". -/
def loadCollections (category : String) (query : Option String)
    (resp : ApiResult (List Collection)) : BrowseView Collection :=
  match resp with
  | .ok cols =>
      if cols.length = 0 then
        ⟨category, true, .emptyIndicator "No collections found"⟩
      else ⟨category, true, .items cols⟩
  | .err _ => ⟨category, true, .failed⟩

/-- `loadCollectionDetail(id, name)` (app.js lines 350-379): title set to the
collection name, back shown; on success appends one item per track — an
empty `tracks` array yields an empty list, there is no empty-result check;
the catch renders "Failed to load". -/
def loadCollectionDetail (name : String)
    (resp : ApiResult (List Track)) : BrowseView Track :=
  match resp with
  | .ok tracks => ⟨name, true, .items tracks⟩
  | .err _ => ⟨name, true, .failed⟩

/-- State relevant to the debounced search handler (app.js lines 403-413):
the browse stack (read, never written, by the timer callback) and the single
pending `searchTimeout`, carrying its remaining delay and the query `q`
captured at keystroke time. -/
structure SearchState where
  browseStack : List BrowseFrame
  pending : Option (Nat × String)
deriving DecidableEq, Repr

/-- JavaScript `value.trim()`: strip leading and trailing whitespace. -/
def jsTrim (s : String) : String :=
  String.mk
    (((s.data.dropWhile Char.isWhitespace).reverse.dropWhile
      Char.isWhitespace).reverse)

/-- The `input` event handler body before the timer fires (app.js lines
404-407): `clearTimeout(searchTimeout)` then
`searchTimeout = setTimeout(..., 300)` with `q = value.trim()` captured. -/
def searchKeystroke (value : String) (s : SearchState) : SearchState :=
  { s with pending := some (300, jsTrim value) }

/-- The body of the debounce timer callback (app.js lines 408-411): read the
top of the browse stack; when it is a category frame, call
`loadCollections(current.name, q)` — i.e. issue its request; otherwise do
nothing. The stack is never written. -/
def searchFire (stack : List BrowseFrame) (q : String) : List Request :=
  match stack.getLast? with
  | some (.category name) => [collectionsRequest name (some q)]
  | _ => []

/-- Let `t` time units pass: the pending timer fires iff its remaining delay
is at most `t`. -/
def searchAdvance (t : Nat) (s : SearchState) : SearchState × List Request :=
  match s.pending with
  | none => (s, [])
  | some (d, q) =>
      if d ≤ t then ({ s with pending := none }, searchFire s.browseStack q)
      else ({ s with pending := some (d - t, q) }, [])

/-- An event on the search input timeline: a keystroke carrying the new input
value, or the passage of `t` time units. -/
inductive SearchEv where
  | key (value : String)
  | tick (t : Nat)
deriving DecidableEq, Repr

/-- Run a timeline of keystrokes and delays through the debounce machinery,
collecting every request the timer callback issues. -/
def runSearch : List SearchEv → SearchState → SearchState × List Request
  | [], s => (s, [])
  | .key v :: rest, s => runSearch rest (searchKeystroke v s)
  | .tick t :: rest, s =>
      ((runSearch rest (searchAdvance t s).1).1,
        (searchAdvance t s).2 ++ (runSearch rest (searchAdvance t s).1).2)

/-- Timeline of a typing burst: each pair is a keystroke value followed by
the gap until the next event. -/
def keySeq : List (String × Nat) → List SearchEv
  | [] => []
  | (v, g) :: rest => .key v :: .tick g :: keySeq rest

/-- A whole typing burst against a fixed browse stack: the keystrokes with
their gaps, then enough idle time (300 units) for the last debounce timer to
fire. -/
def searchScenario (stack : List BrowseFrame) (ks : List (String × Nat)) :
    SearchState × List Request :=
  runSearch (keySeq ks ++ [.tick 300]) ⟨stack, none⟩

/-- A JavaScript number as `formatTime` can receive it: NaN, an infinity, or
a finite value (modelled as an exact rational). -/
inductive JSNum where
  | nan
  | posInf
  | negInf
  | fin (q : ℚ)
deriving DecidableEq, Repr

/-- A value of the `s` parameter of `formatTime`: possibly `undefined`. -/
inductive JSVal where
  | undef
  | num (n : JSNum)
deriving DecidableEq, Repr

/-- JavaScript truthiness test `!s` on the argument of `formatTime`: `undefined`,
`NaN` and `0` are falsy. -/
def jsFalsy : JSVal → Bool
  | .undef => true
  | .num .nan => true
  | .num (.fin q) => q = 0
  | .num _ => false

/-- JavaScript `isFinite(s)` (with `undefined` coercing to NaN). -/
def jsIsFinite : JSVal → Bool
  | .num (.fin _) => true
  | _ => false

/-- JavaScript truncation toward zero, as `ToInt32`-free float ops use. -/
def jsTrunc (q : ℚ) : ℤ :=
  if 0 ≤ q then ⌊q⌋ else ⌈q⌉

/-- The JavaScript remainder operator `a % b` on finite numbers:
`a - b * trunc(a / b)`. -/
def jsMod (a b : ℚ) : ℚ :=
  a - b * (jsTrunc (a / b) : ℚ)

/-- JavaScript `str.padStart(n, c)`: prepend `c` until length `n`. -/
def jsPadStart (str : String) (n : Nat) (c : Char) : String :=
  String.mk (List.replicate (n - str.length) c) ++ str

/-- `formatTime(s)` (app.js lines 177-182): the string 0:00 for falsy or non-finite
input, otherwise `Math.floor(s / 60)`, a colon, and `Math.floor(s % 60)` padded
to two digits. The non-`fin` fallback arm is unreachable: every such value
is rejected by the `!s || !isFinite(s)` guard. -/
def formatTime (s : JSVal) : String :=
  if jsFalsy s || !jsIsFinite s then "0:00"
  else
    match s with
    | .num (.fin q) =>
        let m := ⌊q / 60⌋
        let sec := ⌊jsMod q 60⌋
        toString m ++ ":" ++ jsPadStart (toString sec) 2 '0'
    | _ => "0:00"

/-- JavaScript `ToInt32`: reduce mod 2^32 into `[-2^31, 2^31)`. -/
def toInt32 (n : ℤ) : ℤ :=
  (n + 2 ^ 31) % 2 ^ 32 - 2 ^ 31

/-- One step of the `setPlaceholderColor` hash loop (app.js line 123):
`hash = charCode + ((hash << 5) - hash)`, where `<<` coerces to int32 and
overflows mod 2^32 while `+` and `-` are exact. -/
def hashStep (h : ℤ) (c : Nat) : ℤ :=
  c + (toInt32 (h * 32) - h)

/-- The full hash of `setPlaceholderColor` over the character codes of the name,
starting from 0. -/
def nameHash (name : String) : ℤ :=
  name.toList.foldl (fun h c => hashStep h c.toNat) 0

/-- `const hue = Math.abs(hash) % 360` (app.js line 125). -/
def placeholderHue (name : String) : Nat :=
  (nameHash name).natAbs % 360

/-- The CSS background `setPlaceholderColor(name)` writes (app.js lines
126-127), determined by the hue alone. -/
def setPlaceholderColor (name : String) : String :=
  let hue := placeholderHue name
  "linear-gradient(135deg, hsl(" ++ toString hue ++
    ", 40%, 15%), hsl(" ++ toString ((hue + 60) % 360) ++ ", 30%, 10%))"

/-- Is a render the distinct empty-result indicator? -/
def Render.isEmptyIndicator {α : Type} : Render α → Bool
  | .emptyIndicator _ => true
  | _ => false

/-- The snapshot `\x7btrack: null\x7d` as delivered by a successful
`GET /api/player/current` on an empty catalog. -/
def nullSnapshot : Snapshot :=
  { track := none, collection := none, category_name := "", has_prev := false }

/- ────────────────────────── Theorems ────────────────────────── -/

/-- C1: for every state in which `isLoading` is true, invoking `nextTrack`
or `prevTrack` sends no service request and changes no state — the call is
dropped (early `return`), not queued — so at most one playback transition is
in flight at a time. The whole output (state, requests, toasts, display) is
that of a pure no-op, whatever the service would have answered. -/
theorem nextPrev_loading_noop (st : PlayerState)
    (respN respP : ApiResult Snapshot) (h : st.isLoading = true) :
    nextTrack st respN = ⟨st, [], [], none⟩ ∧
    prevTrack st respP = ⟨st, [], [], none⟩ := by
  constructor <;> simp [nextTrack, prevTrack, h]

/-- Witness for C1 at a concrete loading state. -/
theorem nextPrev_loading_noop_witness :
    ({ isLoading := true } : PlayerState).isLoading = true ∧
    nextTrack { isLoading := true } (.err "boom") =
      ⟨{ isLoading := true }, [], [], none⟩ ∧
    prevTrack { isLoading := true } (.ok nullSnapshot) =
      ⟨{ isLoading := true }, [], [], none⟩ :=
  ⟨rfl,
    (nextPrev_loading_noop { isLoading := true } (.err "boom")
      (.ok nullSnapshot) rfl).1,
    (nextPrev_loading_noop { isLoading := true } (.err "boom")
      (.ok nullSnapshot) rfl).2⟩

/-- C2: when a `nextTrack` / `prevTrack` service call fails (the operation
actually ran, i.e. `isLoading` was false), the catch block notifies the user
exactly once, clears `isLoading`, and leaves the previously applied snapshot
(`track`, `collection`, `categoryName`) unchanged. The embedding is a total
function returning normally on the error branch: the failure is caught
inside the controller and does not propagate. -/
theorem nextPrev_failure_semantics (st : PlayerState) (m m' : String)
    (h : st.isLoading = false) :
    (nextTrack st (.err m)).toasts = ["Failed to load next track"] ∧
    (nextTrack st (.err m)).state.isLoading = false ∧
    (nextTrack st (.err m)).state.track = st.track ∧
    (nextTrack st (.err m)).state.collection = st.collection ∧
    (nextTrack st (.err m)).state.categoryName = st.categoryName ∧
    (prevTrack st (.err m')).toasts = ["No previous track"] ∧
    (prevTrack st (.err m')).state.isLoading = false ∧
    (prevTrack st (.err m')).state.track = st.track ∧
    (prevTrack st (.err m')).state.collection = st.collection ∧
    (prevTrack st (.err m')).state.categoryName = st.categoryName := by
  simp [nextTrack, prevTrack, h]

/-- Witness for C2 at a concrete non-loading state. -/
theorem nextPrev_failure_semantics_witness :
    ({} : PlayerState).isLoading = false ∧
    (nextTrack {} (.err "HTTP 500")).toasts = ["Failed to load next track"] ∧
    (nextTrack {} (.err "HTTP 500")).state.isLoading = false ∧
    (prevTrack {} (.err "HTTP 404")).toasts = ["No previous track"] :=
  ⟨rfl,
    (nextPrev_failure_semantics {} "HTTP 500" "HTTP 404" rfl).1,
    (nextPrev_failure_semantics {} "HTTP 500" "HTTP 404" rfl).2.1,
    (nextPrev_failure_semantics {} "HTTP 500" "HTTP 404" rfl).2.2.2.2.2.1⟩

/-- C3: with a current track `t`, `toggleUpvote` issues POST when
`t.upvoted = false` (never DELETE) and DELETE when `t.upvoted = true`; the
local flag flips exactly when the awaited call succeeds; a failed call
leaves the whole state (hence `upvoted`) unchanged and emits exactly one
"Upvote failed" notification. -/
theorem toggleUpvote_semantics (st : PlayerState) (t : Track)
    (h : st.track = some t) :
    (∀ resp, t.upvoted = false →
      (toggleUpvote st resp).requests = [.postUpvote t.id]) ∧
    (∀ resp, t.upvoted = true →
      (toggleUpvote st resp).requests = [.deleteUpvote t.id]) ∧
    (∀ u, (toggleUpvote st (.ok u)).state.track =
      some { t with upvoted := !t.upvoted }) ∧
    (∀ m, (toggleUpvote st (.err m)).state = st ∧
      (toggleUpvote st (.err m)).toasts = ["Upvote failed"]) := by
  refine ⟨fun resp hu => ?_, fun resp hu => ?_, fun u => ?_, fun m => ?_⟩
  · cases resp <;> simp [toggleUpvote, h, hu]
  · cases resp <;> simp [toggleUpvote, h, hu]
  · cases hu : t.upvoted <;> simp [toggleUpvote, h, hu]
  · cases hu : t.upvoted <;> simp [toggleUpvote, h, hu]

/-- Witness for C3 at a concrete state with an un-upvoted current track. -/
theorem toggleUpvote_semantics_witness :
    ({ track := some ⟨7, "t", "t.mod", "mod", false⟩ } : PlayerState).track =
      some ⟨7, "t", "t.mod", "mod", false⟩ ∧
    (toggleUpvote { track := some ⟨7, "t", "t.mod", "mod", false⟩ }
      (.err "HTTP 500")).requests = [.postUpvote 7] ∧
    (toggleUpvote { track := some ⟨7, "t", "t.mod", "mod", false⟩ }
      (.err "HTTP 500")).toasts = ["Upvote failed"] ∧
    (toggleUpvote { track := some ⟨7, "t", "t.mod", "mod", false⟩ }
      (.ok ())).state.track = some ⟨7, "t", "t.mod", "mod", true⟩ :=
  ⟨rfl,
    (toggleUpvote_semantics _ _ rfl).1 (.err "HTTP 500") rfl,
    ((toggleUpvote_semantics _ _ rfl).2.2.2 "HTTP 500").2,
    (toggleUpvote_semantics _ _ rfl).2.2.1 ()⟩

/-- C4 counterexample: on a *successful* `/api/player/current` response with
`track: null`, `loadCurrent` schedules no retry at all — the
`setTimeout(loadCurrent, 3000)` sits in the catch branch, which a resolved
response never reaches — refuting "exactly one retry of loadCurrent is
scheduled after 3 time units". -/
theorem loadCurrent_nullTrack_noRetry_cex :
    (loadCurrent {} (.ok nullSnapshot)).retryDelays = [] ∧
    (loadCurrent {} (.ok nullSnapshot)).retryDelays ≠ [3000] := by
  decide

/-- C4 as amended: on a successful response with a null track, the UI shows
the "No tracks available" / "Waiting for crawl..." indicators, no toast is
shown, the call returns normally with the state untouched, and *no* retry is
scheduled; the single 3-time-unit retry is scheduled only when the service
call itself fails (and that failure path also shows no toast). -/
theorem loadCurrent_nullTrack_amended (st : PlayerState) (data : Snapshot)
    (h : data.track = none) (m : String) :
    (loadCurrent st (.ok data)).display =
      some ⟨"No tracks available", "Waiting for crawl...", "", none, none⟩ ∧
    (loadCurrent st (.ok data)).toasts = [] ∧
    (loadCurrent st (.ok data)).retryDelays = [] ∧
    (loadCurrent st (.ok data)).state = st ∧
    (loadCurrent st (.err m)).retryDelays = [3000] ∧
    (loadCurrent st (.err m)).toasts = [] := by
  simp [loadCurrent, applyPlayerState, h]

/-- Witness for the amended C4 at the concrete null snapshot. -/
theorem loadCurrent_nullTrack_amended_witness :
    nullSnapshot.track = none ∧
    (loadCurrent {} (.ok nullSnapshot)).display =
      some ⟨"No tracks available", "Waiting for crawl...", "", none, none⟩ ∧
    (loadCurrent {} (.err "HTTP 503")).retryDelays = [3000] :=
  ⟨rfl,
    (loadCurrent_nullTrack_amended {} nullSnapshot rfl "HTTP 503").1,
    (loadCurrent_nullTrack_amended {} nullSnapshot rfl "HTTP 503").2.2.2.2.1⟩

/-- C6: from an empty browse stack, push category `A`, push collection `B`,
then `browseBack()`: the stack is exactly `[category A]` again and the
triggered load is `loadCollections(A)` — not the root category list and not
the track list of `B`. -/
theorem browse_push_push_back_roundTrip (A : String) (idB : Nat)
    (B : String) :
    browseBack (pushCollection idB B (pushCategory A []).1).1 =
      ([.category A], .collections A none) := by
  simp [pushCategory, pushCollection, browseBack]

/-- `browseBack` always leaves `dropLast` of the stack (shared helper). -/
lemma browseBack_fst (s : List BrowseFrame) :
    (browseBack s).1 = s.dropLast := by
  rcases h : s.dropLast.getLast? with _ | f
  · simp [browseBack, h]
  · cases f <;> simp [browseBack, h]

/-- C7: `browseBack` pops exactly one frame per invocation (the new stack is
`dropLast` of the old, so its length drops by one), and at the root it is
idempotent: on an empty stack `pop()` is a no-op, the stack stays empty and
the only effect is displaying the category list. -/
theorem browseBack_pops_one_and_root_noop :
    (∀ s : List BrowseFrame, (browseBack s).1 = s.dropLast) ∧
    (∀ s : List BrowseFrame, (browseBack s).1.length = s.length - 1) ∧
    browseBack [] = ([], .categories) := by
  refine ⟨browseBack_fst, fun s => ?_, rfl⟩
  rw [browseBack_fst, List.length_dropLast]

/-- C8 counterexample: a successful *empty* result at the category level and
at the track level renders a plain empty list (`items []`), not a distinct
"nothing found" indicator; only the collection level has such an indicator.
This refutes "at every browse level ... a successful load that returns an
empty result set renders a distinct nothing-found indicator". -/
theorem empty_render_cex :
    (loadCategories (.ok [])).list = Render.items [] ∧
    (loadCategories (.ok [])).list.isEmptyIndicator = false ∧
    (loadCollectionDetail "Axodry" (.ok [])).list = Render.items [] ∧
    (loadCollectionDetail "Axodry" (.ok [])).list.isEmptyIndicator = false := by
  decide

/-- C8 as amended: only `loadCollections` (the collection list within a
category) renders a distinct "No collections found" indicator on an empty
successful result; `loadCategories` and `loadCollectionDetail` render an
empty item list with no indicator. -/
theorem empty_render_amended :
    (∀ cat q, (loadCollections cat q (.ok [])).list =
      Render.emptyIndicator "No collections found") ∧
    (∀ resp : ApiResult (List Category),
      (loadCategories resp).list.isEmptyIndicator = false) ∧
    (∀ name resp, (loadCollectionDetail name resp).list.isEmptyIndicator
      = false) := by
  refine ⟨fun cat q => rfl, fun resp => ?_, fun name resp => ?_⟩
  · cases resp <;> rfl
  · cases resp <;> rfl

/-- C10: the hue `setPlaceholderColor` computes always lies in `[0, 360)`
(it is a `Nat` remainder by 360, so nonnegative by type), and the
computation is deterministic: equal names give equal hues and hence equal
gradient strings, the gradient being a function of the hue alone. -/
theorem placeholderHue_semantics :
    (∀ name : String, placeholderHue name < 360) ∧
    (∀ n1 n2 : String, n1 = n2 →
      placeholderHue n1 = placeholderHue n2 ∧
      setPlaceholderColor n1 = setPlaceholderColor n2) := by
  refine ⟨fun name => Nat.mod_lt _ (by norm_num), fun n1 n2 h => ?_⟩
  rw [h]
  exact ⟨rfl, rfl⟩

/-- Witness for C10 at the concrete fallback name `"music"` (the name
`loadArt` uses when no collection is present); its hue evaluates to 5. -/
theorem placeholderHue_semantics_witness :
    placeholderHue "music" < 360 ∧
    setPlaceholderColor "music" = setPlaceholderColor "music" ∧
    placeholderHue "music" = 5 :=
  ⟨placeholderHue_semantics.1 "music",
    (placeholderHue_semantics.2 "music" "music" rfl).2, by decide⟩

/-- Floor of a rational divided by 60 is floor followed by integer
division. -/
lemma floor_div_sixty (q : ℚ) : ⌊q / 60⌋ = ⌊q⌋ / 60 := by
  refine eq_of_forall_le_iff fun z => ?_
  rw [Int.le_floor, le_div_iff (by norm_num : (0:ℚ) < 60),
    Int.le_ediv_iff_mul_le (by norm_num : (0:ℤ) < 60), Int.le_floor]
  push_cast
  rfl

/-- For nonnegative input, the floor of the JavaScript remainder `q % 60`
is the mathematical residue `⌊q⌋ % 60`. -/
lemma floor_jsMod_sixty (q : ℚ) (hq : 0 ≤ q) : ⌊jsMod q 60⌋ = ⌊q⌋ % 60 := by
  have htr : jsTrunc (q / 60) = ⌊q / 60⌋ := by
    unfold jsTrunc
    rw [if_pos (div_nonneg hq (by norm_num))]
  have hcast : (60 : ℚ) * ((⌊q⌋ / 60 : ℤ) : ℚ) = ((60 * (⌊q⌋ / 60) : ℤ) : ℚ) := by
    push_cast
    ring
  rw [jsMod, htr, floor_div_sixty, hcast, Int.floor_sub_int, Int.emod_def]

/-- A seconds value in `[0, 60)` zero-padded to width 2 has length exactly
2. -/
lemma jsPadStart_sec_length (n : ℤ) (h0 : 0 ≤ n) (h60 : n < 60) :
    (jsPadStart (toString n) 2 '0').length = 2 := by
  lift n to ℕ using h0 with k
  have hk : k < 60 := by exact_mod_cast h60
  interval_cases k <;> decide

/-- C9: `formatTime` returns `"0:00"` when its argument is zero, absent
(`undefined`), or not finite (NaN or an infinity); for finite `s ≥ 0` it
returns `⌊s / 60⌋`, a colon, and the residue `⌊s⌋ % 60` zero-padded to
exactly two digits (the padded seconds field always has length 2). -/
theorem formatTime_spec :
    formatTime .undef = "0:00" ∧
    formatTime (.num .nan) = "0:00" ∧
    formatTime (.num .posInf) = "0:00" ∧
    formatTime (.num .negInf) = "0:00" ∧
    formatTime (.num (.fin 0)) = "0:00" ∧
    ∀ q : ℚ, 0 ≤ q →
      formatTime (.num (.fin q)) =
        toString ⌊q / 60⌋ ++ ":" ++ jsPadStart (toString (⌊q⌋ % 60)) 2 '0' ∧
      (jsPadStart (toString (⌊q⌋ % 60)) 2 '0').length = 2 := by
  refine ⟨rfl, rfl, rfl, rfl, by decide, fun q hq => ?_⟩
  have hmod0 : (0:ℤ) ≤ ⌊q⌋ % 60 := Int.emod_nonneg _ (by norm_num)
  have hmod60 : ⌊q⌋ % 60 < 60 := Int.emod_lt_of_pos _ (by norm_num)
  refine ⟨?_, jsPadStart_sec_length _ hmod0 hmod60⟩
  by_cases h0 : q = 0
  · subst h0
    have h1 : ⌊(0:ℚ) / 60⌋ = 0 := by norm_num
    have h2 : ⌊(0:ℚ)⌋ = 0 := by norm_num
    rw [h1, h2]
    decide
  · have hval : formatTime (.num (.fin q)) =
        toString ⌊q / 60⌋ ++ ":" ++ jsPadStart (toString ⌊jsMod q 60⌋) 2 '0' := by
      simp [formatTime, jsFalsy, jsIsFinite, h0]
    rw [hval, floor_jsMod_sixty q hq]

/-- Running a concatenation of event timelines composes state and
concatenates the requests. -/
lemma runSearch_append (evs1 evs2 : List SearchEv) (s : SearchState) :
    runSearch (evs1 ++ evs2) s =
      ((runSearch evs2 (runSearch evs1 s).1).1,
        (runSearch evs1 s).2 ++ (runSearch evs2 (runSearch evs1 s).1).2) := by
  induction evs1 generalizing s with
  | nil => simp [runSearch]
  | cons e rest ih =>
      cases e with
      | key v =>
          simp only [List.cons_append, runSearch]
          exact ih _
      | tick t =>
          simp only [List.cons_append, runSearch, List.append_eq]
          rw [ih]
          simp [List.append_assoc]

/-- A typing burst whose internal gaps are all below the 300-unit debounce
window never fires mid-burst: it issues no request and ends with a single
pending timer carrying the trimmed text of the final keystroke. -/
lemma runSearch_keySeq (stack : List BrowseFrame)
    (ks : List (String × Nat)) :
    ∀ p, ∀ hne : ks ≠ [], (∀ x ∈ ks, x.2 < 300) →
    ∃ d, 0 < d ∧ d ≤ 300 ∧
      runSearch (keySeq ks) ⟨stack, p⟩ =
        (⟨stack, some (d, jsTrim (ks.getLast hne).1)⟩, []) := by
  induction ks with
  | nil => exact fun p hne _ => absurd rfl hne
  | cons x rest ih =>
      intro p hne hgap
      obtain ⟨v, g⟩ := x
      have hg : g < 300 := hgap (v, g) (List.mem_cons_self _ _)
      have hnle : ¬ (300 ≤ g) := by omega
      by_cases hrest : rest = []
      · subst hrest
        refine ⟨300 - g, by omega, by omega, ?_⟩
        simp [keySeq, runSearch, searchKeystroke, searchAdvance, hnle,
          List.getLast]
      · obtain ⟨d, hd1, hd2, hrun⟩ :=
          ih (some (300 - g, jsTrim v)) hrest
            (fun x hx => hgap x (List.mem_cons_of_mem _ hx))
        refine ⟨d, hd1, hd2, ?_⟩
        rw [List.getLast_cons hrest]
        simp [keySeq, runSearch, searchKeystroke, searchAdvance, hnle, hrun]

/-- C5: for every keystroke sequence whose gaps are all shorter than the
300-unit debounce window, exactly one timer callback fires (after the final
pause): the browse stack is unchanged, and when the top frame is a category
exactly one outbound search request results, a `loadCollections` call
carrying the trimmed final query text; when the top frame is not a category
no request is issued at all. -/
theorem searchDebounce_single_request (stack : List BrowseFrame)
    (ks : List (String × Nat)) (hne : ks ≠ [])
    (hgap : ∀ x ∈ ks, x.2 < 300) :
    (searchScenario stack ks).1.browseStack = stack ∧
    (searchScenario stack ks).1.pending = none ∧
    (searchScenario stack ks).2 =
      searchFire stack (jsTrim (ks.getLast hne).1) ∧
    (∀ c, stack.getLast? = some (.category c) →
      (searchScenario stack ks).2 =
        [collectionsRequest c (some (jsTrim (ks.getLast hne).1))]) ∧
    ((∀ c, stack.getLast? ≠ some (.category c)) →
      (searchScenario stack ks).2 = []) := by
  obtain ⟨d, _, hd2, hrun⟩ := runSearch_keySeq stack ks none hne hgap
  have hmain : searchScenario stack ks =
      (⟨stack, none⟩, searchFire stack (jsTrim (ks.getLast hne).1)) := by
    rw [searchScenario, runSearch_append, hrun]
    simp [runSearch, searchAdvance, hd2]
  refine ⟨by rw [hmain], by rw [hmain], by rw [hmain], fun c hc => ?_,
    fun hc => ?_⟩
  · rw [hmain]
    simp [searchFire, hc]
  · rw [hmain]
    unfold searchFire
    rcases h : stack.getLast? with _ | f
    · rfl
    · cases f with
      | category name => exact absurd h (hc name)
      | collection i n => rfl

/-- Witness for C5: two keystrokes `"a"` then `"ab"` separated by 100 and
followed by 50 idle units before the flush, over a stack whose top is the
category `"demos"`: exactly one request, carrying `"ab"`. -/
theorem searchDebounce_single_request_witness :
    ([("a", 100), ("ab", 50)] : List (String × Nat)) ≠ [] ∧
    (∀ x ∈ ([("a", 100), ("ab", 50)] : List (String × Nat)), x.2 < 300) ∧
    (searchScenario [.category "demos"] [("a", 100), ("ab", 50)]).2 =
      [Request.getCollections "demos" (some "ab")] ∧
    (searchScenario [.category "demos"] [("a", 100), ("ab", 50)]).1.browseStack
      = [.category "demos"] := by
  refine ⟨by simp, by decide, ?_, ?_⟩
  · have h := (searchDebounce_single_request [.category "demos"]
      [("a", 100), ("ab", 50)] (by simp) (by decide)).2.2.2.1 "demos" rfl
    rw [h]
    rfl
  · exact (searchDebounce_single_request [.category "demos"]
      [("a", 100), ("ab", 50)] (by simp) (by decide)).1

/-- Witness for C9 at the concrete input 90 seconds, which formats as
`"1:30"`. -/
theorem formatTime_spec_witness :
    (0:ℚ) ≤ 90 ∧
    formatTime (.num (.fin 90)) =
      toString ⌊(90:ℚ) / 60⌋ ++ ":" ++
        jsPadStart (toString (⌊(90:ℚ)⌋ % 60)) 2 '0' ∧
    formatTime (.num (.fin 90)) = "1:30" :=
  ⟨by norm_num, (formatTime_spec.2.2.2.2.2 90 (by norm_num)).1, by
    rw [(formatTime_spec.2.2.2.2.2 90 (by norm_num)).1]
    have e1 : ⌊(90:ℚ) / 60⌋ = 1 := by norm_num
    have e2 : ⌊(90:ℚ)⌋ = 90 := by norm_num
    rw [e1, e2]
    decide⟩
